import Mathlib

/-!
Verification of the kysely-to-dexie bridge: candidate-key inference,
key-resolution validation, store-schema emission, and the staged builder,
shallowly embedded from src/src/example.ts and its delegated store-handle
contract.
-/

deriving instance DecidableEq for Except

namespace KyselyToDexie

/-- Field kind tag of the relational schema: Generated marks a
system-assigned identifier candidate, Plain marks ordinary data. -/
inductive FieldKind where
  | generated
  | plain
deriving DecidableEq, Repr

/-- Declared value type of a field. The core passes it through without
interpreting it. -/
inductive ValueType where
  | numeric
  | textual
  | boolean
deriving DecidableEq, Repr

/-- Field descriptor: a kind tag plus a value-type hint. -/
structure FieldSpec where
  kind : FieldKind
  vtype : ValueType
deriving DecidableEq, Repr

/-- Table schema: association list from field name to its descriptor. -/
abbrev TableSchema := List (String × FieldSpec)

/-- Database schema: association list from table name to its schema. -/
abbrev DatabaseSchema := List (String × TableSchema)

/-- Mapping from table name to the chosen primary-key field name. -/
abbrev PrimaryKeyMapping := List (String × String)

/-- Candidate-key detector, embedding the mapped type FindPrimaryKey of
src/src/example.ts lines 47-50: the names of the fields whose descriptor
is tagged Generated. -/
def FindPrimaryKey (t : TableSchema) : List String :=
  (t.filter (fun p => decide (p.2.kind = FieldKind.generated))).map Prod.fst

/-- Validation errors, named after the taxonomy of the design spec. -/
inductive ValidationError where
  | NoCandidateKey (table : String)
  | InvalidKeyChoice (table : String) (field : String)
  | UnknownTable (table : String)
deriving DecidableEq, Repr

/-- Looks a table schema up by name in the database schema. -/
def lookupTable (db : DatabaseSchema) (t : String) : Option TableSchema :=
  (db.find? (fun p => decide (p.1 = t))).map Prod.snd

/-- Modelled from the spec: the Key-Resolution Validator for a single
mapping entry. In the source this check is performed entirely by the
TypeScript type system through the PrimaryKeyConfig constraint of
src/src/example.ts lines 85-87, so no runtime validator exists under src;
the check and its error names follow sections 4.2 and 7 of the spec: an
unknown table fails with UnknownTable, a table with an empty candidate set
fails with NoCandidateKey, and a chosen field outside a nonempty candidate
set fails with InvalidKeyChoice. -/
def validateEntry (db : DatabaseSchema) (t : String) (f : String) :
    Except ValidationError Unit :=
  match lookupTable db t with
  | none => Except.error (ValidationError.UnknownTable t)
  | some schema =>
    let candidates := FindPrimaryKey schema
    if candidates.isEmpty then Except.error (ValidationError.NoCandidateKey t)
    else if f ∈ candidates then Except.ok ()
    else Except.error (ValidationError.InvalidKeyChoice t f)

/-- Modelled from the spec: the Key-Resolution Validator over a whole
mapping, checking every entry and failing on the first invalid one. -/
def validate (db : DatabaseSchema) : PrimaryKeyMapping → Except ValidationError Unit
  | [] => Except.ok ()
  | (t, f) :: rest =>
    match validateEntry db t f with
    | Except.error e => Except.error e
    | Except.ok _ => validate db rest

/-- Emitted per-table key specification as the storage engine records it:
the key field name, the unique flag, and the auto-increment flag. The spec
notion externallySupplied corresponds to auto = false. -/
structure KeySpec where
  name : String
  unique : Bool
  auto : Bool
deriving DecidableEq, Repr

/-- Embeds the storesConfig computation of build in src/src/example.ts
lines 205-210: every table name is paired with the template literal
interpolating the chosen key, which is exactly the bare key string. The
comment above that code claims an ampersand is prepended, but the template
literal does not prepend it. -/
def storesConfig (config : PrimaryKeyMapping) : List (String × String) :=
  config.map (fun p => (p.1, p.2))

/-- Stores string the source comment at src/src/example.ts lines 203-204
documents, written from those words for comparison with storesConfig: the
chosen key with an ampersand prepended. -/
def storesConfigDocumented (config : PrimaryKeyMapping) : List (String × String) :=
  config.map (fun p => (p.1, "&" ++ p.2))

/-- Modelled from the spec: the storage engine parse of a key spec string,
following the syntax the source comment at src/src/example.ts line 204 and
the test suite rely on: a leading ++ marks the key auto-incrementing, a
leading ampersand marks it unique and user-provided, and a bare name is
neither auto-incrementing nor flagged unique. -/
def parseKeySpec (s : String) : KeySpec :=
  if ("++".data).isPrefixOf s.data then
    { name := ⟨s.data.drop 2⟩, unique := false, auto := true }
  else if ("&".data).isPrefixOf s.data then
    { name := ⟨s.data.drop 1⟩, unique := true, auto := false }
  else { name := s, unique := false, auto := false }

/-- Per-table key specifications the build step hands to the storage
engine: the parse of each stores string emitted by storesConfig. -/
def emittedSpecs (config : PrimaryKeyMapping) : List (String × KeySpec) :=
  (storesConfig config).map (fun p => (p.1, parseKeySpec p.2))

/-- Runtime record: association list from field name to a stored value. -/
inductive Value where
  | num (n : Int)
  | str (s : String)
  | bool (b : Bool)
deriving DecidableEq, Repr

/-- Record stored in a table: field name to value. -/
abbrev Record := List (String × Value)

/-- Looks a field up in a record. -/
def recLookup (r : Record) (f : String) : Option Value :=
  (r.find? (fun p => decide (p.1 = f))).map Prod.snd

/-- Runtime store-handle errors of the delegated contract. -/
inductive StoreError where
  | KeyMissingOnInsert (field : String)
  | DuplicateKey (field : String)
deriving DecidableEq, Repr

/-- State of one materialized table: its key specification and its rows. -/
structure TableStore where
  spec : KeySpec
  rows : List Record
deriving DecidableEq, Repr

/-- Modelled from the spec: the add operation of the materialized store
handle, a delegated contract absent from src. Section 6 requires the
resolved key field to be present in the record and section 7 requires a
missing key to surface KeyMissingOnInsert to the caller; the unique flag
of the key specification makes an insert of an already present key fail;
otherwise the record is appended and its key value returned. -/
def TableStore.add (st : TableStore) (r : Record) :
    Except StoreError (Value × TableStore) :=
  match recLookup r st.spec.name with
  | none => Except.error (StoreError.KeyMissingOnInsert st.spec.name)
  | some k =>
    if st.rows.any (fun row => decide (recLookup row st.spec.name = some k))
    then Except.error (StoreError.DuplicateKey st.spec.name)
    else Except.ok (k, { spec := st.spec, rows := st.rows ++ [r] })

/-- Runs add in state-passing form: the result of the operation together
with the table state after it, which is the unchanged input state when the
operation fails. -/
def TableStore.addRun (st : TableStore) (r : Record) :
    Except StoreError Value × TableStore :=
  match st.add r with
  | Except.error e => (Except.error e, st)
  | Except.ok (k, st') => (Except.ok k, st')

/-- Modelled from the spec: the get operation of the materialized store
handle, returning the record whose key field holds the given key, when
one is stored. -/
def TableStore.get (st : TableStore) (k : Value) : Option Record :=
  st.rows.find? (fun row => decide (recLookup row st.spec.name = some k))

/-- Modelled from the spec: the toArray operation of the materialized
store handle, returning the stored sequence of records. -/
def TableStore.toArray (st : TableStore) : List Record :=
  st.rows

/-- Materialized store handle: the database name, its version, and the
per-table stores. -/
structure StoreHandle where
  dbName : String
  version : Nat
  tables : List (String × TableStore)
deriving DecidableEq, Repr

/-- Key specifications carried by a materialized handle. -/
def StoreHandle.keySpecs (h : StoreHandle) : List (String × KeySpec) :=
  h.tables.map (fun p => (p.1, p.2.spec))

/-- Embeds the staged builder chain of kyselyToDexieFactory in
src/src/example.ts lines 180-220: schema binding, config binding, and
build. In the source the config is checked against the schema by the type
system before build can ever run; modelled from the spec as eager
validation during construction, after which build parses the emitted
stores configuration and materializes a fresh handle with empty tables. -/
def kyselyToDexieChain (db : DatabaseSchema) (config : PrimaryKeyMapping)
    (dbName : String) (version : Nat) : Except ValidationError StoreHandle :=
  match validate db config with
  | Except.error e => Except.error e
  | Except.ok _ =>
    Except.ok
      { dbName := dbName
        version := version
        tables := (emittedSpecs config).map (fun p => (p.1, { spec := p.2, rows := [] })) }

/-! Concrete schemas of the spec scenarios and the test suite. -/

/-- Scenario D schema: logs with a single Plain field. -/
def logsSchema : TableSchema :=
  [("message", ⟨FieldKind.plain, ValueType.textual⟩)]

/-- Scenario A schema: users with a Generated numeric id. -/
def usersSchema : TableSchema :=
  [("id", ⟨FieldKind.generated, ValueType.numeric⟩),
   ("name", ⟨FieldKind.plain, ValueType.textual⟩)]

/-- Scenario B schema: products with a Generated textual sku. -/
def productsSchema : TableSchema :=
  [("sku", ⟨FieldKind.generated, ValueType.textual⟩),
   ("name", ⟨FieldKind.plain, ValueType.textual⟩),
   ("price", ⟨FieldKind.plain, ValueType.numeric⟩)]

/-- Scenario C schema: ambiguous items with two Generated fields. -/
def ambiguousItemsSchema : TableSchema :=
  [("id1", ⟨FieldKind.generated, ValueType.numeric⟩),
   ("id2", ⟨FieldKind.generated, ValueType.textual⟩),
   ("description", ⟨FieldKind.plain, ValueType.textual⟩)]

/-- C5: the candidate-key detector returns exactly the set of field names
whose kind is Generated — membership in FindPrimaryKey is equivalent to
being a Generated field of the table — and on the table
a Plain, b Generated, c Generated it returns the set containing b and c. -/
theorem C5_detector_exact :
    (∀ (t : TableSchema) (f : String),
      f ∈ FindPrimaryKey t ↔
        ∃ spec : FieldSpec, (f, spec) ∈ t ∧ spec.kind = FieldKind.generated) ∧
    (FindPrimaryKey
        [("a", ⟨FieldKind.plain, ValueType.textual⟩),
         ("b", ⟨FieldKind.generated, ValueType.numeric⟩),
         ("c", ⟨FieldKind.generated, ValueType.textual⟩)]).toFinset
      = ({"b", "c"} : Finset String) := by
  constructor
  · intro t f
    constructor
    · intro hmem
      rcases List.mem_map.mp hmem with ⟨⟨a, spec⟩, hfil, hfst⟩
      rcases List.mem_filter.mp hfil with ⟨hin, hgen⟩
      refine ⟨spec, ?_, of_decide_eq_true hgen⟩
      simpa [← hfst] using hin
    · rintro ⟨spec, hin, hgen⟩
      exact List.mem_map.mpr
        ⟨(f, spec), List.mem_filter.mpr ⟨hin, decide_eq_true hgen⟩, rfl⟩
  · decide

/-- C4: a table whose schema has zero Generated fields has an empty
candidate-key set, and every mapping entry choosing any field for it fails
validation with NoCandidateKey. -/
theorem C4_no_candidate_key (db : DatabaseSchema) (t : String)
    (schema : TableSchema) (h1 : lookupTable db t = some schema)
    (h2 : ∀ p ∈ schema, p.2.kind ≠ FieldKind.generated) :
    FindPrimaryKey schema = [] ∧
    ∀ f, validateEntry db t f
      = Except.error (ValidationError.NoCandidateKey t) := by
  have hfp : FindPrimaryKey schema = [] := by
    unfold FindPrimaryKey
    rw [List.filter_eq_nil_iff.mpr fun a ha => by simpa using h2 a ha]
    rfl
  refine ⟨hfp, fun f => ?_⟩
  simp [validateEntry, h1, hfp]

/-- C4 witness: the logs table of Scenario D has an empty candidate set
and its mapping entry fails with NoCandidateKey. -/
theorem C4_witness :
    FindPrimaryKey logsSchema = [] ∧
    validateEntry [("logs", logsSchema)] "logs" "id"
      = Except.error (ValidationError.NoCandidateKey "logs") := by
  have h := C4_no_candidate_key [("logs", logsSchema)] "logs" logsSchema rfl
    (by decide)
  exact ⟨h.1, h.2 "id"⟩

/-- C3 counterexample: for the logs table, whose candidate set is empty,
the chosen field message is not a member of the candidate set, yet
validation fails with NoCandidateKey and not with InvalidKeyChoice, so the
claim that every non-member choice fails with InvalidKeyChoice is false. -/
theorem C3_counterexample :
    ¬ ("message" ∈ FindPrimaryKey logsSchema) ∧
    validateEntry [("logs", logsSchema)] "logs" "message"
      = Except.error (ValidationError.NoCandidateKey "logs") ∧
    validateEntry [("logs", logsSchema)] "logs" "message"
      ≠ Except.error (ValidationError.InvalidKeyChoice "logs" "message") :=
  ⟨by decide, rfl, by decide⟩

/-- C3 amended: every validated pair has its chosen field in the candidate
set of the table, and a chosen field outside a nonempty candidate set
fails validation with InvalidKeyChoice; a table whose candidate set is
empty fails with NoCandidateKey instead. -/
theorem C3_member_or_invalid_choice (db : DatabaseSchema) (t f : String)
    (schema : TableSchema) (h : lookupTable db t = some schema) :
    (validateEntry db t f = Except.ok () → f ∈ FindPrimaryKey schema) ∧
    (FindPrimaryKey schema ≠ [] → f ∉ FindPrimaryKey schema →
      validateEntry db t f
        = Except.error (ValidationError.InvalidKeyChoice t f)) := by
  constructor
  · intro hok
    by_cases hemp : (FindPrimaryKey schema).isEmpty
    · simp [validateEntry, h, hemp] at hok
    · by_cases hmem : f ∈ FindPrimaryKey schema
      · exact hmem
      · simp [validateEntry, h, hemp, hmem] at hok
  · intro hne hmem
    have hemp : (FindPrimaryKey schema).isEmpty = false := by
      simp [List.isEmpty_iff]
      exact hne
    simp [validateEntry, h, hemp, hmem]

/-- C3 witness: for the ambiguous items table of Scenario C, choosing the
Plain field description fails validation with InvalidKeyChoice, and
choosing id1 validates, with id1 a member of the candidate set. -/
theorem C3_witness :
    validateEntry [("ambiguous_items", ambiguousItemsSchema)]
        "ambiguous_items" "description"
      = Except.error
          (ValidationError.InvalidKeyChoice "ambiguous_items" "description") ∧
    "id1" ∈ FindPrimaryKey ambiguousItemsSchema :=
  ⟨(C3_member_or_invalid_choice [("ambiguous_items", ambiguousItemsSchema)]
      "ambiguous_items" "description" ambiguousItemsSchema rfl).2
      (by decide) (by decide),
   (C3_member_or_invalid_choice [("ambiguous_items", ambiguousItemsSchema)]
      "ambiguous_items" "id1" ambiguousItemsSchema rfl).1 rfl⟩

/-- C1: at the failing input mapping users to id, the build step emits the
bare stores string id, whose parsed key specification has unique = false —
contradicting the claimed unique = true — while auto = false and the field
name do hold; the variant the source comment documents, with the ampersand
prepended, would have parsed to unique = true. -/
theorem C1_emitted_spec_at_failing_input :
    storesConfig [("users", "id")] = [("users", "id")] ∧
    emittedSpecs [("users", "id")]
      = [("users", { name := "id", unique := false, auto := false })] ∧
    (storesConfigDocumented [("users", "id")]).map
        (fun p => (p.1, parseKeySpec p.2))
      = [("users", { name := "id", unique := true, auto := false })] :=
  ⟨rfl, rfl, by decide⟩

/-- C2: for every table store and record in which the resolved key field
is absent, running add surfaces the explicit KeyMissingOnInsert error to
the caller. -/
theorem C2_add_missing_key_surfaces_error (st : TableStore) (r : Record)
    (h : recLookup r st.spec.name = none) :
    (st.addRun r).1
      = Except.error (StoreError.KeyMissingOnInsert st.spec.name) := by
  simp [TableStore.addRun, TableStore.add, h]

/-- C2 witness: adding a record without the id field to the users store
surfaces KeyMissingOnInsert. -/
theorem C2_witness :
    ((TableStore.addRun
        { spec := { name := "id", unique := false, auto := false },
          rows := [] }
        [("name", Value.str "Alice")]).1)
      = Except.error (StoreError.KeyMissingOnInsert "id") :=
  C2_add_missing_key_surfaces_error
    { spec := { name := "id", unique := false, auto := false }, rows := [] }
    [("name", Value.str "Alice")] rfl

/-- C8: for every table store and record containing the resolved key field
with value k, when no stored row already holds k the add operation
succeeds and returns k as the key, for numeric and textual key values
alike. -/
theorem C8_add_returns_key (st : TableStore) (r : Record) (k : Value)
    (hk : recLookup r st.spec.name = some k)
    (hfresh : ∀ row ∈ st.rows, recLookup row st.spec.name ≠ some k) :
    st.add r = Except.ok (k, { spec := st.spec, rows := st.rows ++ [r] }) := by
  have hany : st.rows.any
      (fun row => decide (recLookup row st.spec.name = some k)) = false := by
    rw [List.any_eq_false]
    intro row hrow
    simpa using hfresh row hrow
  simp [TableStore.add, hk, hany]

/-- C8 witness: inserting a record with numeric id 123 into the users
store returns key 123, and inserting a record with textual sku PROD-XYZ
into the products store returns key PROD-XYZ. -/
theorem C8_witness :
    TableStore.add
        { spec := { name := "id", unique := false, auto := false },
          rows := [] }
        [("id", Value.num 123), ("name", Value.str "Alice")]
      = Except.ok (Value.num 123,
          { spec := { name := "id", unique := false, auto := false },
            rows := [[("id", Value.num 123), ("name", Value.str "Alice")]] }) ∧
    TableStore.add
        { spec := { name := "sku", unique := false, auto := false },
          rows := [] }
        [("sku", Value.str "PROD-XYZ"), ("name", Value.str "Laptop"),
         ("price", Value.num 1200)]
      = Except.ok (Value.str "PROD-XYZ",
          { spec := { name := "sku", unique := false, auto := false },
            rows := [[("sku", Value.str "PROD-XYZ"),
                      ("name", Value.str "Laptop"),
                      ("price", Value.num 1200)]] }) :=
  ⟨C8_add_returns_key _ _ _ rfl (by simp),
   C8_add_returns_key _ _ _ rfl (by simp)⟩

/-- C9: for every table store and record in which the resolved key field
is absent, running add leaves the table state unchanged: the resulting
state equals the input state and toArray returns the same sequence as
before the call. -/
theorem C9_failed_add_preserves_state (st : TableStore) (r : Record)
    (h : recLookup r st.spec.name = none) :
    (st.addRun r).2 = st ∧
    ((st.addRun r).2).toArray = st.toArray := by
  have hrun : st.addRun r
      = (Except.error (StoreError.KeyMissingOnInsert st.spec.name), st) := by
    simp [TableStore.addRun, TableStore.add, h]
  rw [hrun]
  exact ⟨rfl, rfl⟩

/-- C9 witness: adding a record without the sku field to a products store
already holding one row leaves the stored sequence unchanged. -/
theorem C9_witness :
    ((TableStore.addRun
        { spec := { name := "sku", unique := false, auto := false },
          rows := [[("sku", Value.str "A")]] }
        [("name", Value.str "Laptop"), ("price", Value.num 1200)]).2).toArray
      = [[("sku", Value.str "A")]] :=
  (C9_failed_add_preserves_state
    { spec := { name := "sku", unique := false, auto := false },
      rows := [[("sku", Value.str "A")]] }
    [("name", Value.str "Laptop"), ("price", Value.num 1200)] rfl).2

/-- C10: whenever add succeeds on a record and returns key k together with
the new table state, get at k on that state returns exactly the inserted
record, every field included. -/
theorem C10_get_after_add (st : TableStore) (r : Record) (k : Value)
    (st' : TableStore) (h : st.add r = Except.ok (k, st')) :
    st'.get k = some r := by
  unfold TableStore.add at h
  cases hl : recLookup r st.spec.name with
  | none => simp [hl] at h
  | some k0 =>
    rw [hl] at h
    cases hany : st.rows.any
        (fun row => decide (recLookup row st.spec.name = some k0)) with
    | true => simp [hany] at h
    | false =>
      simp only [hany, Bool.false_eq_true, if_false, Except.ok.injEq,
        Prod.mk.injEq] at h
      obtain ⟨hk, hst⟩ := h
      subst hk
      subst hst
      unfold TableStore.get
      have hnone : st.rows.find?
          (fun row => decide (recLookup row st.spec.name = some k0)) = none := by
        rw [List.find?_eq_none]
        intro x hx hpx
        exact absurd hpx (by simpa using List.any_eq_false.mp hany x hx)
      rw [show ({ spec := st.spec, rows := st.rows ++ [r] } :
          TableStore).rows = st.rows ++ [r] from rfl,
        List.find?_append, hnone, Option.none_or]
      simp [List.find?, hl]

/-- C10 witness: after a successful insert of the Alice record with id 123
into the users store, get at 123 returns exactly that record. -/
theorem C10_witness :
    TableStore.get
        { spec := { name := "id", unique := false, auto := false },
          rows := [[("id", Value.num 123), ("name", Value.str "Alice")]] }
        (Value.num 123)
      = some [("id", Value.num 123), ("name", Value.str "Alice")] :=
  C10_get_after_add
    { spec := { name := "id", unique := false, auto := false }, rows := [] }
    [("id", Value.num 123), ("name", Value.str "Alice")]
    (Value.num 123)
    { spec := { name := "id", unique := false, auto := false },
      rows := [[("id", Value.num 123), ("name", Value.str "Alice")]] }
    rfl

/-- Helper: a mapping that validates as a whole validates entrywise. -/
theorem validate_ok_entries (db : DatabaseSchema) (config : PrimaryKeyMapping)
    (h : validate db config = Except.ok ()) :
    ∀ p ∈ config, validateEntry db p.1 p.2 = Except.ok () := by
  induction config with
  | nil => intro p hp; cases hp
  | cons q rest ih =>
    obtain ⟨t, f⟩ := q
    unfold validate at h
    cases he : validateEntry db t f with
    | error e => rw [he] at h; exact absurd h (by simp)
    | ok u =>
      rw [he] at h
      intro p hp
      rcases List.mem_cons.mp hp with hp1 | hp2
      · subst hp1; cases u; exact he
      · exact ih h p hp2

/-- C6: validation gates the build atomically — when validation of the
mapping fails the chain surfaces that validation error and materializes no
store handle, and whenever the chain does return a store handle the whole
mapping validated, every entry included (all-or-nothing). -/
theorem C6_validation_gates_build (db : DatabaseSchema)
    (config : PrimaryKeyMapping) (nm : String) (ver : Nat) :
    (∀ e, validate db config = Except.error e →
      kyselyToDexieChain db config nm ver = Except.error e) ∧
    (∀ h, kyselyToDexieChain db config nm ver = Except.ok h →
      validate db config = Except.ok () ∧
      ∀ p ∈ config, validateEntry db p.1 p.2 = Except.ok ()) := by
  constructor
  · intro e he
    simp [kyselyToDexieChain, he]
  · intro h hok
    unfold kyselyToDexieChain at hok
    cases hv : validate db config with
    | error e =>
      simp only [hv] at hok
      exact absurd hok (by simp)
    | ok u =>
      cases u
      exact ⟨rfl, validate_ok_entries db config hv⟩

/-- C6 witness: for the logs table of Scenario D the chain aborts with the
validation error NoCandidateKey and returns no store handle. -/
theorem C6_witness :
    kyselyToDexieChain [("logs", logsSchema)] [("logs", "message")]
        "localdb" 1
      = Except.error (ValidationError.NoCandidateKey "logs") :=
  (C6_validation_gates_build [("logs", logsSchema)] [("logs", "message")]
      "localdb" 1).1 (ValidationError.NoCandidateKey "logs") rfl

/-- C7: two runs of the full chain on identical inputs return handles with
identical key specifications — both equal to the specifications emitted
from the mapping — and equal fresh contents, and the second handle holds
its own storage: its tables stay at their fresh empty contents no matter
what add operations are performed through the first handle. -/
theorem C7_determinism_independent_handles (db : DatabaseSchema)
    (config : PrimaryKeyMapping) (nm : String) (ver : Nat)
    (h₁ h₂ : StoreHandle)
    (e₁ : kyselyToDexieChain db config nm ver = Except.ok h₁)
    (e₂ : kyselyToDexieChain db config nm ver = Except.ok h₂) :
    h₁.keySpecs = h₂.keySpecs ∧
    h₁.keySpecs = emittedSpecs config ∧
    h₁ = h₂ ∧
    (∀ t ts r k ts', (t, ts) ∈ h₁.tables → ts.add r = Except.ok (k, ts') →
      ∀ q ∈ h₂.tables, q.2.rows = ([] : List Record)) := by
  unfold kyselyToDexieChain at e₁ e₂
  cases hv : validate db config with
  | error e => simp [hv] at e₁
  | ok u =>
    simp only [hv, Except.ok.injEq] at e₁ e₂
    subst e₁
    subst e₂
    refine ⟨rfl, ?_, rfl, ?_⟩
    · unfold StoreHandle.keySpecs
      rw [List.map_map]
      exact List.map_id _
    · intro t ts r k ts' hmem hadd q hq
      rcases List.mem_map.mp hq with ⟨p, hp, hpe⟩
      rw [← hpe]

/-- C7 witness: running the chain on the users schema and the mapping
choosing id yields a handle whose key specifications equal the emitted
specifications of that mapping. -/
theorem C7_witness :
    StoreHandle.keySpecs
        { dbName := "localdb", version := 1,
          tables := [("users",
            { spec := { name := "id", unique := false, auto := false },
              rows := [] })] }
      = emittedSpecs [("users", "id")] :=
  (C7_determinism_independent_handles [("users", usersSchema)]
      [("users", "id")] "localdb" 1
      { dbName := "localdb", version := 1,
        tables := [("users",
          { spec := { name := "id", unique := false, auto := false },
            rows := [] })] }
      { dbName := "localdb", version := 1,
        tables := [("users",
          { spec := { name := "id", unique := false, auto := false },
            rows := [] })] }
      rfl rfl).2.1

end KyselyToDexie
